import Mathlib

/-!
Shallow embedding of the detection pipeline of the android-webrtc-dji
repository (files src/jetson/websocket_server.py, src/jetson/webrtc_receiver.py
and src/jetson/yolo_processor.py), together with theorems settling the
behavioural claims about it.  Machine-level concerns (sockets, the event loop,
the aiortc and websockets libraries) are modelled by explicit data: a payload
carries the outcome that json.dumps would produce on it, the registry of
subscriber connections is a list of client identifiers, and the filesystem is a
partial map from resolved absolute paths to entries.
-/

namespace AndroidWebrtcDji

/-! ### Python values as fed to json.dumps

A payload handed to a broadcast call is either a str, a bytes object, or an
arbitrary Python object.  json.dumps succeeds exactly on the JSON-encodable
part of the object graph; the constructor jbad stands for an object on
which json.dumps raises TypeError. -/

inductive JVal where
  | jnull
  | jbool (b : Bool)
  | jnum (n : Int)
  | jstr (s : String)
  | jarr (xs : List JVal)
  | jbad
deriving Repr

mutual

/-- Model of json.dumps: some rendered text on encodable values, none when the
value contains a non-encodable object (TypeError in Python). -/
def JVal.dumps : JVal → Option String
  | .jnull => some "null"
  | .jbool b => some (if b then "true" else "false")
  | .jnum n => some (toString n)
  | .jstr s => some ("\x22" ++ s ++ "\x22")
  | .jarr xs => (JVal.dumpsList xs).map (fun parts => "[" ++ String.intercalate "," parts ++ "]")
  | .jbad => none

/-- Encode each element of a list, failing if any element fails. -/
def JVal.dumpsList : List JVal → Option (List String)
  | [] => some []
  | x :: xs =>
      match JVal.dumps x, JVal.dumpsList xs with
      | some hd, some tl => some (hd :: tl)
      | _, _ => none

end

/-- A payload given to DetectionBroadcaster.broadcast: the isinstance check in
the source distinguishes str and bytes from everything else. -/
inductive Payload where
  | ofStr (s : String)
  | ofBytes (b : String)
  | ofVal (v : JVal)
deriving Repr

/-- The message text broadcast sends: str and bytes payloads pass through
unchanged, any other payload goes through json.dumps. -/
def Payload.serialize : Payload → Option String
  | .ofStr s => some s
  | .ofBytes b => some b
  | .ofVal v => v.dumps

/-! ### DetectionBroadcaster (src/jetson/websocket_server.py)

The registry self._clients is modelled as a list of client identifiers (the
snapshot list(self._clients) taken by the source).  Effects are recorded as
data: log events and attempted sends. -/

inductive LogEvent where
  | serializeError
deriving Repr, DecidableEq

structure BroadcastResult where
  logs : List LogEvent
  sends : List (Nat × String)
deriving Repr, DecidableEq

/-- DetectionBroadcaster.broadcast (websocket_server.py lines 451-468): return
at once on an empty registry; pass str and bytes through, otherwise serialize
with json.dumps, logging and sending nothing on TypeError; then attempt a send
of the serialized message to every registered client other than the sender. -/
def DetectionBroadcaster.broadcast (clients : List Nat) (payload : Payload)
    (sender : Option Nat) : BroadcastResult :=
  if clients = [] then ⟨[], []⟩
  else
    match payload.serialize with
    | none => ⟨[.serializeError], []⟩
    | some message =>
        let targets := clients.filter (fun c => some c ≠ sender)
        if targets = [] then ⟨[], []⟩
        else ⟨[], targets.map (fun c => (c, message))⟩

/-- One close issued to a subscriber socket. -/
structure CloseAction where
  client : Nat
  code : Nat
  reason : String
deriving Repr, DecidableEq

/-- State visible after a reset call: the closes that were issued and the
registry contents when the call returns. -/
structure ResetResult where
  closes : List CloseAction
  clientsAfter : List Nat
deriving Repr, DecidableEq

/-- DetectionBroadcaster.reset (websocket_server.py lines 415-424): a no-op on
an empty registry, otherwise close every registered client via
_close_client_connection (code 1012, reason "Detection stream restarting",
lines 426-442).  The method itself never mutates self._clients; entries are
discarded later by each connection handler when it observes the close. -/
def DetectionBroadcaster.reset (clients : List Nat) : ResetResult :=
  if clients = [] then ⟨[], clients⟩
  else ⟨clients.map (fun c => ⟨c, 1012, "Detection stream restarting"⟩), clients⟩

/-! ### Listener binding validation (DetectionBroadcaster.start) -/

structure Binding where
  host : String
  port : Nat
deriving Repr, DecidableEq

inductive StartOutcome where
  | alreadyStarted
  | started (listeners : List Binding)
deriving Repr, DecidableEq

/-- The duplicate-detection loop of start: walk the bindings keeping the set
of (host, port) pairs seen so far, erroring on the first repeat. -/
def checkDuplicateBindings : List Binding → List Binding → Option String
  | _, [] => none
  | seen, b :: rest =>
      if b ∈ seen then
        some ("Duplicate listener binding requested for " ++ b.host ++ ":" ++ toString b.port)
      else checkDuplicateBindings (b :: seen) rest

/-- DetectionBroadcaster.start (websocket_server.py lines 361-405), up to the
point where listeners are opened: an already-started server returns at once;
a missing listeners argument defaults to the single self binding; an empty
list and a duplicate (host, port) pair are rejected before any listener is
opened; otherwise all bindings are accepted. -/
def DetectionBroadcaster.start (serversActive : Bool) (selfBinding : Binding)
    (listeners : Option (List Binding)) : Except String StartOutcome :=
  if serversActive then .ok .alreadyStarted
  else
    let specs := listeners.getD [selfBinding]
    if specs = [] then .error "At least one listener must be specified"
    else
      match checkDuplicateBindings [] specs with
      | some msg => .error msg
      | none => .ok (.started specs)

/-! ### Serving recording files (DetectionBroadcaster._serve_recording_file)

Paths are lists of components of a resolved absolute path; the filesystem is
a partial map from such paths to entries (symlink-free: Path.resolve in the
source produces the final resolved path which is then checked, so the model
identifies a path with its resolved form). -/

abbrev AbsPath := List String

inductive FsEntry where
  | file (content : String)
  | dir
deriving Repr, DecidableEq

abbrev FileSystem := AbsPath → Option FsEntry

/-- One step of Path.resolve over a component: empty and dot components vanish,
dotdot pops one component (staying put at the filesystem root), anything else
is appended. -/
def resolveStep (acc : List String) (comp : String) : List String :=
  if comp = "" ∨ comp = "." then acc
  else if comp = ".." then acc.dropLast
  else acc ++ [comp]

/-- (base / relative).resolve() for an already-resolved base: fold the relative
components over the base path. -/
def resolvePath (base : AbsPath) (rel : List String) : AbsPath :=
  rel.foldl resolveStep base

structure HttpResponse where
  status : Nat
  body : String
deriving Repr, DecidableEq

/-- DetectionBroadcaster._serve_recording_file (websocket_server.py lines
1006-1028): 404 with empty body when no recordings root is configured, when
the resolved candidate leaves the root (candidate.relative_to(base) raising
ValueError), or when the candidate is missing or a directory; otherwise 200
with the file bytes.  The lstrip of leading slashes is subsumed by empty
components vanishing under resolveStep. -/
def DetectionBroadcaster.serveRecordingFile (fs : FileSystem)
    (recordingsDir : Option AbsPath) (relativePath : List String) : HttpResponse :=
  match recordingsDir with
  | none => ⟨404, ""⟩
  | some base =>
      let candidate := resolvePath base relativePath
      if base.isPrefixOf candidate then
        match fs candidate with
        | none => ⟨404, ""⟩
        | some .dir => ⟨404, ""⟩
        | some (.file content) => ⟨200, content⟩
      else ⟨404, ""⟩

/-! ### Signaling URL construction (WebRTCYOLOPipeline._build_signaling_url)

A URL is modelled in the parsed six-component form urlparse produces; the
query component is kept as the ordered key-value list parse_qsl yields. -/

structure UrlParts where
  scheme : String
  netloc : String
  path : String
  urlParams : String
  query : List (String × String)
  fragment : String
deriving Repr, DecidableEq

/-- Insertion into a Python dict kept as an ordered association list with
unique keys: an existing key keeps its position and takes the new value, a new
key is appended. -/
def dictInsert : List (String × String) → String → String → List (String × String)
  | [], k, v => [(k, v)]
  | p :: rest, k, v => if p.1 = k then (k, v) :: rest else p :: dictInsert rest k v

/-- dict(parse_qsl(query)): fold the pairs into a dict, so a repeated key keeps
its first position and last value. -/
def dictOfPairs (pairs : List (String × String)) : List (String × String) :=
  pairs.foldl (fun d p => dictInsert d p.1 p.2) []

/-- Value of a key in an ordered association list (first occurrence). -/
def dictLookup : List (String × String) → String → Option String
  | [], _ => none
  | p :: rest, k => if p.1 = k then some p.2 else dictLookup rest k

/-- WebRTCYOLOPipeline._build_signaling_url (webrtc_receiver.py lines
430-452) on parsed URLs: no override yields ws://host:port/ws; the query of
the chosen base goes through dict(parse_qsl(..)) and is updated with
role=subscriber and streamId; an empty or bare-slash path becomes /ws; all
other components are carried over unchanged. -/
def WebRTCYOLOPipeline.buildSignalingUrl (streamId : String)
    (explicitUrl : Option UrlParts) (host : String) (port : Nat) : UrlParts :=
  let parsed :=
    match explicitUrl with
    | some u => u
    | none => ⟨"ws", host ++ ":" ++ toString port, "/ws", "", [], ""⟩
  let queryParams :=
    dictInsert (dictInsert (dictOfPairs parsed.query) "role" "subscriber") "streamId" streamId
  let path0 := if parsed.path = "" then "/ws" else parsed.path
  let path1 := if path0 = "/" then "/ws" else path0
  ⟨parsed.scheme, parsed.netloc, path1, parsed.urlParams, queryParams, parsed.fragment⟩

/-! ### The signaling loop body (WebRTCYOLOPipeline._signaling_loop)

One incoming frame is either the BYE sentinel, text that fails json.loads, or
a decoded message.  The aiortc collaborators are abstracted by data: parseCand
is candidate_from_sdp (none on a parse failure), answerSdp is the SDP text of
the answer createAnswer returns (its type is always the string answer), and
addOk tells whether addIceCandidate succeeds.  Effects are a list of actions
plus whether the loop continues. -/

structure SigMsg where
  hasError : Bool
  mtype : Option String
  sdp : Option String
  sdpType : Option String
  candidate : Option String
  sdpMid : Option String
  sdpMLineIndex : Option Int
deriving Repr, DecidableEq

structure IceCandidate where
  candidate : String
  sdpMid : Option String
  sdpMLineIndex : Option Int
deriving Repr, DecidableEq

inductive SigAction where
  | logWarn (tag : String)
  | logError (tag : String)
  | logDebug (tag : String)
  | setRemoteDescription (sdp ty : String)
  | setLocalDescription (sdp ty : String)
  | sendSdpAnswer (sdpTy sdp : String)
  | addIceCandidate (c : Option IceCandidate)
deriving Repr, DecidableEq

inductive LoopOutcome where
  | continueLoop
  | breakLoop
deriving Repr, DecidableEq

inductive RawMessage where
  | bye
  | invalidJson (raw : String)
  | msg (m : SigMsg)
deriving Repr, DecidableEq

/-- The sdp branch of the loop body (webrtc_receiver.py lines 223-245): an
empty or missing payload is only logged; otherwise the description (with
sdpType defaulting to offer) is applied as remote description, and for an
offer an answer is synthesized, set as local description, and sent back. -/
def handleSdp (pcPresent : Bool) (answerSdp : String) (m : SigMsg) : List SigAction :=
  match m.sdp with
  | none => [.logWarn "sdp missing payload"]
  | some s =>
      if s = "" then [.logWarn "sdp missing payload"]
      else
        let sdpTy := m.sdpType.getD "offer"
        if pcPresent then
          if sdpTy = "offer" then
            [.setRemoteDescription s sdpTy, .setLocalDescription answerSdp "answer",
              .sendSdpAnswer "answer" answerSdp]
          else [.setRemoteDescription s sdpTy]
        else [.logWarn "peer connection missing"]

/-- The sdpMid member is applied only when truthy (non-empty): the source
guards the assignment with if sdp_mid. -/
def normalizeSdpMid : Option String → Option String
  | some s => if s = "" then none else some s
  | none => none

/-- The ice branch of the loop body (webrtc_receiver.py lines 246-283): an
empty or missing candidate is applied as the null candidate; otherwise the
candidate text is parsed (a failure is logged and the message dropped), a
truthy sdpMid and a non-null sdpMLineIndex are applied, and the candidate is
added, with an add failure merely logged. -/
def handleIce (pcPresent : Bool) (parseCand : String → Option String)
    (addOk : Bool) (m : SigMsg) : List SigAction :=
  match m.candidate with
  | none =>
      if pcPresent then [.addIceCandidate none]
      else [.logWarn "peer connection missing"]
  | some c =>
      if c = "" then
        if pcPresent then [.addIceCandidate none]
        else [.logWarn "peer connection missing"]
      else
        match parseCand c with
        | none => [.logError "failed to parse ice candidate"]
        | some parsed =>
            let built : IceCandidate := ⟨parsed, normalizeSdpMid m.sdpMid, m.sdpMLineIndex⟩
            if pcPresent then
              if addOk then [.addIceCandidate (some built)]
              else [.addIceCandidate (some built), .logWarn "failed to add ice candidate"]
            else [.logWarn "peer connection missing"]

/-- One iteration of WebRTCYOLOPipeline._signaling_loop (webrtc_receiver.py
lines 206-285): BYE breaks the loop; invalid JSON, an error member, and an
unsupported type are logged; sdp and ice messages are dispatched to their
branches.  Every branch other than BYE continues the loop. -/
def signalingStep (pcPresent : Bool) (parseCand : String → Option String)
    (answerSdp : String) (addOk : Bool) : RawMessage → List SigAction × LoopOutcome
  | .bye => ([], .breakLoop)
  | .invalidJson _ => ([.logWarn "invalid json"], .continueLoop)
  | .msg m =>
      if m.hasError then ([.logError "signaling error"], .continueLoop)
      else
        match m.mtype with
        | some "sdp" => (handleSdp pcPresent answerSdp m, .continueLoop)
        | some "ice" => (handleIce pcPresent parseCand addOk m, .continueLoop)
        | _ => ([.logDebug "unsupported message"], .continueLoop)

/-! ### WebSocketDetectionPublisher (webrtc_receiver.py lines 22-126)

The remote relay sink keeps a single outward connection, modelled by a Bool
(a held connection is taken to be open).  The network is abstracted by an
environment giving, per loop attempt, whether a fresh connect succeeds and
whether a send on the held connection succeeds. -/

inductive RelayEvent where
  | encodeErrorLog
  | reconnect
  | sendAttempt
  | teardown
  | sleepRetry
  | dropLog
deriving Repr, DecidableEq

structure RelayEnv where
  connectOk : Nat → Bool
  sendOk : Nat → Bool

inductive RelayOutcome where
  | sent
  | dropped
  | encodeFailed
deriving Repr, DecidableEq

/-- _ensure_connection at loop attempt k: reuse a held connection, otherwise
try to connect. -/
def ensureConnection (connected : Bool) (canConnect : Bool) : Bool × List RelayEvent :=
  if connected then (true, [])
  else if canConnect then (true, [.reconnect])
  else (false, [])

/-- One iteration of the for-attempt-in-range(2) loop of broadcast: no
connection means sleep and retry, a send failure tears the connection down,
a send success finishes. -/
def relayAttempt (env : RelayEnv) (k : Nat) (connected : Bool) :
    Bool × List RelayEvent × Option RelayOutcome :=
  let ensured := ensureConnection connected (env.connectOk k)
  if ensured.1 then
    if env.sendOk k then (true, ensured.2 ++ [.sendAttempt], some .sent)
    else (false, ensured.2 ++ [.sendAttempt, .teardown], none)
  else (false, ensured.2 ++ [.sleepRetry], none)

/-- WebSocketDetectionPublisher.broadcast (webrtc_receiver.py lines 45-64):
a payload json.dumps rejects is logged and dropped without touching the
connection; otherwise at most two attempts run (so at most one
reconnect-and-resend cycle after a failure) before the payload is dropped
with an error log.  Every exception of the send path is caught, so the
function is total and always returns an outcome. -/
def WebSocketDetectionPublisher.broadcast (env : RelayEnv) (payload : JVal)
    (connected : Bool) : Bool × List RelayEvent × RelayOutcome :=
  match payload.dumps with
  | none => (connected, [.encodeErrorLog], .encodeFailed)
  | some _ =>
      let a0 := relayAttempt env 0 connected
      match a0.2.2 with
      | some o => (a0.1, a0.2.1, o)
      | none =>
          let a1 := relayAttempt env 1 a0.1
          match a1.2.2 with
          | some o => (a1.1, a0.2.1 ++ a1.2.1, o)
          | none => (a1.1, a0.2.1 ++ a1.2.1 ++ [.dropLog], .dropped)

/-- WebSocketDetectionPublisher.reset (webrtc_receiver.py lines 40-43): drop
the current connection (closing it if held) so the next send reconnects. -/
def WebSocketDetectionPublisher.reset (_connected : Bool) : Bool :=
  false

/-! ### YoloProcessor and the per-pipeline frame counter

YoloProcessor.process (yolo_processor.py lines 48-79) increments the frame_id
member and stamps the result with it and with the wall-clock capture time in
milliseconds.  The detector itself is external; only the id and timestamp
stamping are modelled, with each frame represented by its capture clock. -/

structure YoloState where
  frameId : Nat
deriving Repr, DecidableEq

structure DetectionResultMeta where
  frameId : Nat
  timestampMillis : Nat
deriving Repr, DecidableEq

def YoloProcessor.process (st : YoloState) (clockMillis : Nat) :
    YoloState × DetectionResultMeta :=
  (⟨st.frameId + 1⟩, ⟨st.frameId + 1, clockMillis⟩)

/-- WebRTCYOLOPipeline._consume_video (webrtc_receiver.py lines 287-300) over
a finite list of frames: run self._yolo.process on each frame in order,
threading the processor state. -/
def consumeVideo : YoloState → List Nat → YoloState × List DetectionResultMeta
  | st, [] => (st, [])
  | st, c :: rest =>
      let step := YoloProcessor.process st c
      let next := consumeVideo step.1 rest
      (next.1, step.2 :: next.2)

/-- Successive sessions of one pipeline run: self._yolo is created once in
WebRTCYOLOPipeline.__init__ (webrtc_receiver.py line 152) and shared by every
session the run loop starts, so the processor state threads across sessions. -/
def runSessionsAux : YoloState → List (List Nat) → YoloState × List (List DetectionResultMeta)
  | st, [] => (st, [])
  | st, fs :: rest =>
      let one := consumeVideo st fs
      let next := runSessionsAux one.1 rest
      (next.1, one.2 :: next.2)

/-- The per-session result lists a pipeline produces, starting from the fresh
processor state frame_id = 0. -/
def WebRTCYOLOPipeline.runSessions (sessions : List (List Nat)) :
    List (List DetectionResultMeta) :=
  (runSessionsAux ⟨0⟩ sessions).2

/-! ## Theorems -/

/-- The duplicate scan succeeds exactly on lists of distinct bindings none of
which was already seen. -/
theorem checkDuplicateBindings_eq_none_iff (specs : List Binding) :
    ∀ seen : List Binding,
      checkDuplicateBindings seen specs = none ↔
        specs.Nodup ∧ ∀ b ∈ specs, b ∉ seen := by
  induction specs with
  | nil => intro seen; simp [checkDuplicateBindings]
  | cons b rest ih =>
      intro seen
      by_cases hb : b ∈ seen
      · simp [checkDuplicateBindings, hb]
      · rw [checkDuplicateBindings, if_neg hb, ih (b :: seen)]
        simp only [List.nodup_cons, List.mem_cons, List.mem_cons, not_or]
        constructor
        · rintro ⟨hnd, hall⟩
          refine ⟨⟨fun hmem => ((hall b hmem).1 rfl), hnd⟩, ?_⟩
          intro x hx
          rcases hx with hx | hx
          · exact hx ▸ hb
          · exact (hall x hx).2
        · rintro ⟨⟨hbrest, hnd⟩, hall⟩
          refine ⟨hnd, ?_⟩
          intro x hx
          constructor
          · intro hxb; exact hbrest (hxb ▸ hx)
          · exact hall x (Or.inr hx)

/-- C7: starting the broadcaster with an empty listener list is an error, two
bindings sharing a (host, port) pair are rejected before any listener is
opened, and a list of pairwise distinct bindings is accepted as given. -/
theorem start_listener_validation (selfB : Binding) (specs : List Binding) :
    DetectionBroadcaster.start false selfB (some []) =
      .error "At least one listener must be specified" ∧
    (¬ specs.Nodup →
      ∃ msg, DetectionBroadcaster.start false selfB (some specs) = .error msg) ∧
    (specs ≠ [] → specs.Nodup →
      DetectionBroadcaster.start false selfB (some specs) = .ok (.started specs)) := by
  refine ⟨rfl, ?_, ?_⟩
  · intro hdup
    have hne : checkDuplicateBindings [] specs ≠ none := by
      intro hnone
      exact hdup ((checkDuplicateBindings_eq_none_iff specs []).mp hnone).1
    rcases Option.ne_none_iff_exists'.mp hne with ⟨msg, hmsg⟩
    refine ⟨msg, ?_⟩
    have hspecs : specs ≠ [] := by
      rintro rfl
      exact hdup List.nodup_nil
    simp [DetectionBroadcaster.start, hspecs, hmsg]
  · intro hspecs hnd
    have hnone : checkDuplicateBindings [] specs = none := by
      rw [checkDuplicateBindings_eq_none_iff]
      exact ⟨hnd, by simp⟩
    simp [DetectionBroadcaster.start, hspecs, hnone]

/-- Witness for C7 at concrete inputs: two bindings differing only in port are
accepted, and a repeated binding is rejected. -/
theorem start_listener_validation_witness :
    DetectionBroadcaster.start false ⟨"0.0.0.0", 8765⟩
        (some [⟨"h", 1⟩, ⟨"h", 2⟩]) = .ok (.started [⟨"h", 1⟩, ⟨"h", 2⟩]) ∧
    ∃ msg, DetectionBroadcaster.start false ⟨"0.0.0.0", 8765⟩
        (some [⟨"h", 1⟩, ⟨"h", 1⟩]) = .error msg :=
  ⟨(start_listener_validation ⟨"0.0.0.0", 8765⟩ [⟨"h", 1⟩, ⟨"h", 2⟩]).2.2
      (by decide) (by decide),
    (start_listener_validation ⟨"0.0.0.0", 8765⟩ [⟨"h", 1⟩, ⟨"h", 1⟩]).2.1
      (by decide)⟩

/-- C1 counterexample: after reset on a registry holding one subscriber, the
registry still holds that subscriber when the call returns — the entries are
discarded only later, by each handler observing the close — so the registry
is not empty immediately after reset returns. -/
theorem reset_registry_not_empty_counterexample :
    (DetectionBroadcaster.reset [7]).clientsAfter ≠ [] := by
  decide

/-- C1 amended: reset issues a close with code 1012 and reason "Detection
stream restarting" to every subscriber in the registry, is a no-op on an
empty registry, leaves the registry contents unchanged when it returns, and
a second back-to-back call is safe, merely re-issuing the same closes. -/
theorem reset_closes_every_subscriber (clients : List Nat) :
    (DetectionBroadcaster.reset clients).closes =
      clients.map (fun c => ⟨c, 1012, "Detection stream restarting"⟩) ∧
    (DetectionBroadcaster.reset clients).clientsAfter = clients ∧
    DetectionBroadcaster.reset [] = ⟨[], []⟩ ∧
    DetectionBroadcaster.reset (DetectionBroadcaster.reset clients).clientsAfter =
      DetectionBroadcaster.reset clients := by
  by_cases h : clients = [] <;>
    simp [DetectionBroadcaster.reset, h]

/-- C3: fan-out of a payload json.dumps rejects sends nothing and — whenever
at least one subscriber is registered — logs a serialization error, with the
TypeError caught inside broadcast; a serializable payload is sent to exactly
the registered subscribers other than the sender. -/
theorem broadcast_nonserializable_and_excludes_sender (clients : List Nat)
    (sender : Option Nat) (v : JVal) (payload : Payload) (msg : String) :
    (JVal.dumps v = none →
      (DetectionBroadcaster.broadcast clients (.ofVal v) sender).sends = [] ∧
      (clients ≠ [] →
        DetectionBroadcaster.broadcast clients (.ofVal v) sender =
          ⟨[.serializeError], []⟩)) ∧
    (payload.serialize = some msg →
      (DetectionBroadcaster.broadcast clients payload sender).sends =
        (clients.filter (fun c => some c ≠ sender)).map (fun c => (c, msg))) := by
  constructor
  · intro hv
    constructor
    · by_cases h : clients = [] <;>
        simp [DetectionBroadcaster.broadcast, h, Payload.serialize, hv]
    · intro hne
      simp [DetectionBroadcaster.broadcast, hne, Payload.serialize, hv]
  · intro hmsg
    unfold DetectionBroadcaster.broadcast
    by_cases h : clients = []
    · subst h; simp
    · rw [if_neg h, hmsg]
      dsimp only
      by_cases ht : clients.filter (fun c => some c ≠ sender) = []
      · rw [if_pos ht, ht]; rfl
      · rw [if_neg ht]

/-- Witness for C3 at concrete inputs: a non-encodable payload on a two-client
registry logs and sends nothing; a text payload relayed from client 1 goes to
client 2 only. -/
theorem broadcast_nonserializable_witness :
    (DetectionBroadcaster.broadcast [1, 2] (.ofVal .jbad) none).sends = [] ∧
    DetectionBroadcaster.broadcast [1, 2] (.ofVal .jbad) none =
      ⟨[.serializeError], []⟩ ∧
    (DetectionBroadcaster.broadcast [1, 2] (.ofStr "d") (some 1)).sends =
      [(2, "d")] := by
  refine ⟨((broadcast_nonserializable_and_excludes_sender [1, 2] none .jbad
      (.ofStr "d") "d").1 rfl).1,
    ((broadcast_nonserializable_and_excludes_sender [1, 2] none .jbad
      (.ofStr "d") "d").1 rfl).2 (by decide), ?_⟩
  have h := (broadcast_nonserializable_and_excludes_sender [1, 2] (some 1) .jbad
      (.ofStr "d") "d").2 rfl
  simpa using h

/-- C10: a broadcast on an empty subscriber registry returns before touching
the payload — no serialization attempt, no log entry, no send — even when the
payload is not JSON-serializable. -/
theorem broadcast_empty_registry_no_effect (payload : Payload) (sender : Option Nat) :
    DetectionBroadcaster.broadcast [] payload sender = ⟨[], []⟩ :=
  rfl

/-- C2: a /recordings/<relative> request whose candidate path resolves outside
the recordings root, or resolves to a missing path or a directory, is answered
with 404 and an empty body; whenever bytes are returned they are the contents
of a file lying under the recordings root. -/
theorem serve_recording_file_traversal_safe (fs : FileSystem) (base : AbsPath)
    (rel : List String) :
    (¬ base.isPrefixOf (resolvePath base rel) = true →
      DetectionBroadcaster.serveRecordingFile fs (some base) rel = ⟨404, ""⟩) ∧
    (fs (resolvePath base rel) = none →
      DetectionBroadcaster.serveRecordingFile fs (some base) rel = ⟨404, ""⟩) ∧
    (fs (resolvePath base rel) = some .dir →
      DetectionBroadcaster.serveRecordingFile fs (some base) rel = ⟨404, ""⟩) ∧
    (∀ body, DetectionBroadcaster.serveRecordingFile fs (some base) rel = ⟨200, body⟩ →
      base.isPrefixOf (resolvePath base rel) = true ∧
      fs (resolvePath base rel) = some (.file body)) := by
  have hserve : DetectionBroadcaster.serveRecordingFile fs (some base) rel =
      (if base.isPrefixOf (resolvePath base rel) then
        match fs (resolvePath base rel) with
        | none => ⟨404, ""⟩
        | some .dir => ⟨404, ""⟩
        | some (.file content) => ⟨200, content⟩
      else ⟨404, ""⟩) := rfl
  by_cases hp : base.isPrefixOf (resolvePath base rel) = true
  · cases hfs : fs (resolvePath base rel) with
    | none =>
        have h404 : DetectionBroadcaster.serveRecordingFile fs (some base) rel = ⟨404, ""⟩ := by
          simp only [hserve, if_pos hp, hfs]
        refine ⟨fun hp2 => absurd hp hp2, fun _ => h404, ?_, ?_⟩
        · intro hdir; simp at hdir
        · intro body hbody
          rw [h404] at hbody
          simp at hbody
    | some e =>
        cases e with
        | dir =>
            have h404 : DetectionBroadcaster.serveRecordingFile fs (some base) rel =
                ⟨404, ""⟩ := by
              simp only [hserve, if_pos hp, hfs]
            refine ⟨fun hp2 => absurd hp hp2, ?_, fun _ => h404, ?_⟩
            · intro hnone; simp at hnone
            · intro body hbody
              rw [h404] at hbody
              simp at hbody
        | file content =>
            have h200 : DetectionBroadcaster.serveRecordingFile fs (some base) rel =
                ⟨200, content⟩ := by
              simp only [hserve, if_pos hp, hfs]
            refine ⟨fun hp2 => absurd hp hp2, ?_, ?_, ?_⟩
            · intro hnone; simp at hnone
            · intro hdir; simp at hdir
            · intro body hbody
              rw [h200] at hbody
              have hb : content = body := congrArg HttpResponse.body hbody
              exact ⟨hp, by rw [hb]⟩
  · have h404 : DetectionBroadcaster.serveRecordingFile fs (some base) rel = ⟨404, ""⟩ := by
      simp only [hserve, if_neg hp]
    refine ⟨fun _ => h404, fun _ => h404, fun _ => h404, ?_⟩
    intro body hbody
    rw [h404] at hbody
    simp at hbody

/-- Witness for C2 on a concrete filesystem: a dotdot traversal aimed at
/etc/passwd and a request for a file in an unknown stream directory both
produce a 404 with empty body, and a real file under the root is served with
its own bytes. -/
theorem serve_recording_file_witness :
    DetectionBroadcaster.serveRecordingFile
      (fun p =>
        if p = ["srv", "rec", "s1", "a.mp4"] then some (.file "bytes")
        else if p = ["srv", "rec", "s1"] then some .dir
        else if p = ["srv", "rec"] then some .dir
        else if p = ["etc", "passwd"] then some (.file "secret")
        else none)
      (some ["srv", "rec"]) ["..", "..", "etc", "passwd"] = ⟨404, ""⟩ ∧
    DetectionBroadcaster.serveRecordingFile
      (fun p =>
        if p = ["srv", "rec", "s1", "a.mp4"] then some (.file "bytes")
        else if p = ["srv", "rec", "s1"] then some .dir
        else if p = ["srv", "rec"] then some .dir
        else if p = ["etc", "passwd"] then some (.file "secret")
        else none)
      (some ["srv", "rec"]) ["unknownstream", "x.mp4"] = ⟨404, ""⟩ := by
  constructor
  · exact (serve_recording_file_traversal_safe _ ["srv", "rec"]
      ["..", "..", "etc", "passwd"]).1 (by decide)
  · exact (serve_recording_file_traversal_safe _ ["srv", "rec"]
      ["unknownstream", "x.mp4"]).2.1 (by decide)

/-- Looking up a key just inserted into a dict finds the inserted value. -/
theorem dictLookup_dictInsert_self (d : List (String × String)) (k v : String) :
    dictLookup (dictInsert d k v) k = some v := by
  induction d with
  | nil => simp [dictInsert, dictLookup]
  | cons p rest ih =>
      by_cases h : p.1 = k
      · simp [dictInsert, h, dictLookup]
      · simp [dictInsert, h, dictLookup, ih]

/-- Inserting one key into a dict leaves every other key's value unchanged. -/
theorem dictLookup_dictInsert_ne (d : List (String × String)) (k k' v : String)
    (h : k' ≠ k) : dictLookup (dictInsert d k v) k' = dictLookup d k' := by
  induction d with
  | nil => simp [dictInsert, dictLookup, h.symm]
  | cons p rest ih =>
      by_cases hp : p.1 = k
      · subst hp
        simp [dictInsert, dictLookup, h.symm]
      · simp only [dictInsert, if_neg hp, dictLookup]
        by_cases hp' : p.1 = k'
        · simp [hp']
        · simp [hp', ih]

/-- C4: the constructed signaling URL carries role=subscriber and
streamId=<id> merged into whatever query the override already had; its path
is /ws when no override is given or the override path is empty or a bare
slash; and the override's scheme, network location, fragment, any non-trivial
path, and the values of all other query keys are preserved. -/
theorem build_signaling_url_spec (streamId : String) (e : UrlParts)
    (host : String) (port : Nat) :
    (WebRTCYOLOPipeline.buildSignalingUrl streamId none host port =
      ⟨"ws", host ++ ":" ++ toString port, "/ws", "",
        [("role", "subscriber"), ("streamId", streamId)], ""⟩) ∧
    (dictLookup (WebRTCYOLOPipeline.buildSignalingUrl streamId (some e) host port).query
        "role" = some "subscriber" ∧
      dictLookup (WebRTCYOLOPipeline.buildSignalingUrl streamId (some e) host port).query
        "streamId" = some streamId) ∧
    ((e.path = "" ∨ e.path = "/") →
      (WebRTCYOLOPipeline.buildSignalingUrl streamId (some e) host port).path = "/ws") ∧
    (e.path ≠ "" → e.path ≠ "/" →
      (WebRTCYOLOPipeline.buildSignalingUrl streamId (some e) host port).path = e.path) ∧
    (WebRTCYOLOPipeline.buildSignalingUrl streamId (some e) host port).scheme = e.scheme ∧
    (WebRTCYOLOPipeline.buildSignalingUrl streamId (some e) host port).netloc = e.netloc ∧
    (WebRTCYOLOPipeline.buildSignalingUrl streamId (some e) host port).fragment = e.fragment ∧
    (∀ k, k ≠ "role" → k ≠ "streamId" →
      dictLookup (WebRTCYOLOPipeline.buildSignalingUrl streamId (some e) host port).query k =
        dictLookup (dictOfPairs e.query) k) := by
  refine ⟨?_, ⟨?_, ?_⟩, ?_, ?_, rfl, rfl, rfl, ?_⟩
  · simp [WebRTCYOLOPipeline.buildSignalingUrl, dictOfPairs, dictInsert]
  · show dictLookup
      (dictInsert (dictInsert (dictOfPairs e.query) "role" "subscriber") "streamId" streamId)
        "role" = some "subscriber"
    rw [dictLookup_dictInsert_ne _ _ _ _ (by decide), dictLookup_dictInsert_self]
  · exact dictLookup_dictInsert_self _ _ _
  · intro hpath
    show (if (if e.path = "" then "/ws" else e.path) = "/" then "/ws"
        else if e.path = "" then "/ws" else e.path) = "/ws"
    rcases hpath with h | h <;> simp [h]
  · intro h1 h2
    show (if (if e.path = "" then "/ws" else e.path) = "/" then "/ws"
        else if e.path = "" then "/ws" else e.path) = e.path
    simp [h1, h2]
  · intro k hk1 hk2
    show dictLookup
      (dictInsert (dictInsert (dictOfPairs e.query) "role" "subscriber") "streamId" streamId)
        k = dictLookup (dictOfPairs e.query) k
    rw [dictLookup_dictInsert_ne _ _ _ _ hk2, dictLookup_dictInsert_ne _ _ _ _ hk1]

/-- Witness for C4 on a concrete override URL: scheme, netloc, fragment, the
non-trivial path and the unrelated query key survive, and the two subscriber
parameters are added. -/
theorem build_signaling_url_witness :
    (WebRTCYOLOPipeline.buildSignalingUrl "cam1"
      (some ⟨"wss", "relay:9443", "/custom", "", [("a", "b")], "frag"⟩)
      "localhost" 8080).path = "/custom" ∧
    ((WebRTCYOLOPipeline.buildSignalingUrl "cam1" (some ⟨"wss", "relay:9443", "", "",
      [("a", "b")], ""⟩) "localhost" 8080).path = "/ws") ∧
    dictLookup (WebRTCYOLOPipeline.buildSignalingUrl "cam1"
      (some ⟨"wss", "relay:9443", "/custom", "", [("a", "b")], "frag"⟩)
      "localhost" 8080).query "a" =
      dictLookup (dictOfPairs [("a", "b")]) "a" := by
  refine ⟨?_, ?_, ?_⟩
  · exact (build_signaling_url_spec "cam1"
      ⟨"wss", "relay:9443", "/custom", "", [("a", "b")], "frag"⟩ "localhost" 8080).2.2.2.1
      (by decide) (by decide)
  · exact (build_signaling_url_spec "cam1"
      ⟨"wss", "relay:9443", "", "", [("a", "b")], ""⟩ "localhost" 8080).2.2.1
      (Or.inl rfl)
  · exact (build_signaling_url_spec "cam1"
      ⟨"wss", "relay:9443", "/custom", "", [("a", "b")], "frag"⟩ "localhost" 8080).2.2.2.2.2.2.2
      "a" (by decide) (by decide)

/-- A decoded signaling message never breaks the loop: every branch of the
message dispatch continues. -/
theorem signalingStep_msg_continues (pcPresent : Bool)
    (parseCand : String → Option String) (answerSdp : String) (addOk : Bool)
    (m : SigMsg) :
    (signalingStep pcPresent parseCand answerSdp addOk (.msg m)).2 = .continueLoop := by
  unfold signalingStep
  by_cases he : m.hasError
  · simp [he]
  · simp only [he, Bool.false_eq_true, if_false]
    split <;> rfl

/-- C5: an sdp signaling message with a non-empty payload whose sdpType is
offer, or absent (defaulting to offer), is applied as the remote description,
an answer is synthesized and set as the local description, and the answer is
sent back as an sdp message of sdpType answer; any other sdpType is applied
as remote description only, with nothing sent. -/
theorem signaling_sdp_offer_answered (parseCand : String → Option String)
    (answerSdp : String) (addOk : Bool) (m : SigMsg) (s : String)
    (herr : m.hasError = false) (hty : m.mtype = some "sdp")
    (hsdp : m.sdp = some s) (hne : s ≠ "") :
    ((m.sdpType = none ∨ m.sdpType = some "offer") →
      signalingStep true parseCand answerSdp addOk (.msg m) =
        ([.setRemoteDescription s "offer",
          .setLocalDescription answerSdp "answer",
          .sendSdpAnswer "answer" answerSdp], .continueLoop)) ∧
    (∀ ty, m.sdpType = some ty → ty ≠ "offer" →
      signalingStep true parseCand answerSdp addOk (.msg m) =
        ([.setRemoteDescription s ty], .continueLoop)) := by
  constructor
  · intro hoffer
    have hget : m.sdpType.getD "offer" = "offer" := by
      rcases hoffer with h | h <;> simp [h]
    simp [signalingStep, herr, hty, handleSdp, hsdp, hne, hget]
  · intro ty hsty hnoffer
    simp [signalingStep, herr, hty, handleSdp, hsdp, hne, hsty, hnoffer]

/-- Witness for C5: a concrete offer gets the answer flow, a concrete answer
message is only applied as remote description. -/
theorem signaling_sdp_offer_answered_witness :
    signalingStep true (fun _ => none) "ANS" true
        (.msg ⟨false, some "sdp", some "OFFER", none, none, none, none⟩) =
      ([.setRemoteDescription "OFFER" "offer",
        .setLocalDescription "ANS" "answer",
        .sendSdpAnswer "answer" "ANS"], .continueLoop) ∧
    signalingStep true (fun _ => none) "ANS" true
        (.msg ⟨false, some "sdp", some "DESC", some "answer", none, none, none⟩) =
      ([.setRemoteDescription "DESC" "answer"], .continueLoop) :=
  ⟨(signaling_sdp_offer_answered (fun _ => none) "ANS" true
      ⟨false, some "sdp", some "OFFER", none, none, none, none⟩ "OFFER"
      rfl rfl rfl (by decide)).1 (Or.inl rfl),
    (signaling_sdp_offer_answered (fun _ => none) "ANS" true
      ⟨false, some "sdp", some "DESC", some "answer", none, none, none⟩ "DESC"
      rfl rfl rfl (by decide)).2 "answer" rfl (by decide)⟩

/-- C6: an ice signaling message with an empty or missing candidate is applied
to the peer connection as the null candidate; a candidate that fails to parse
is logged and dropped without an add; a parsing candidate is added with its
truthy sdpMid and non-null sdpMLineIndex applied; and no ice message ever
breaks the signaling loop. -/
theorem signaling_ice_handled (parseCand : String → Option String)
    (answerSdp : String) (addOk : Bool) (m : SigMsg) (c p : String)
    (herr : m.hasError = false) (hty : m.mtype = some "ice") :
    ((m.candidate = none ∨ m.candidate = some "") →
      signalingStep true parseCand answerSdp addOk (.msg m) =
        ([.addIceCandidate none], .continueLoop)) ∧
    (m.candidate = some c → c ≠ "" → parseCand c = none →
      signalingStep true parseCand answerSdp addOk (.msg m) =
        ([.logError "failed to parse ice candidate"], .continueLoop)) ∧
    (m.candidate = some c → c ≠ "" → parseCand c = some p → addOk = true →
      signalingStep true parseCand answerSdp addOk (.msg m) =
        ([.addIceCandidate (some ⟨p, normalizeSdpMid m.sdpMid, m.sdpMLineIndex⟩)],
          .continueLoop)) ∧
    (signalingStep true parseCand answerSdp addOk (.msg m)).2 = .continueLoop := by
  refine ⟨?_, ?_, ?_, signalingStep_msg_continues true parseCand answerSdp addOk m⟩
  · intro hcand
    rcases hcand with h | h <;>
      simp [signalingStep, herr, hty, handleIce, h]
  · intro hcand hne hparse
    simp [signalingStep, herr, hty, handleIce, hcand, hne, hparse]
  · intro hcand hne hparse haddOk
    simp [signalingStep, herr, hty, handleIce, hcand, hne, hparse, haddOk]

/-- Witness for C6 at concrete messages: a missing candidate becomes the null
candidate, an unparsable candidate is only logged, and a parsable candidate
is added with its sdpMid and sdpMLineIndex. -/
theorem signaling_ice_handled_witness :
    signalingStep true (fun c => if c = "good" then some "parsed" else none) "A" true
        (.msg ⟨false, some "ice", none, none, none, none, none⟩) =
      ([.addIceCandidate none], .continueLoop) ∧
    signalingStep true (fun c => if c = "good" then some "parsed" else none) "A" true
        (.msg ⟨false, some "ice", none, none, some "bad", some "0", some 0⟩) =
      ([.logError "failed to parse ice candidate"], .continueLoop) ∧
    signalingStep true (fun c => if c = "good" then some "parsed" else none) "A" true
        (.msg ⟨false, some "ice", none, none, some "good", some "0", some 0⟩) =
      ([.addIceCandidate (some ⟨"parsed", some "0", some 0⟩)], .continueLoop) := by
  refine ⟨?_, ?_, ?_⟩
  · exact (signaling_ice_handled (fun c => if c = "good" then some "parsed" else none)
      "A" true ⟨false, some "ice", none, none, none, none, none⟩ "x" "y" rfl rfl).1
      (Or.inl rfl)
  · exact (signaling_ice_handled (fun c => if c = "good" then some "parsed" else none)
      "A" true ⟨false, some "ice", none, none, some "bad", some "0", some 0⟩ "bad" "y"
      rfl rfl).2.1 rfl (by decide) (by decide)
  · have h := (signaling_ice_handled (fun c => if c = "good" then some "parsed" else none)
      "A" true ⟨false, some "ice", none, none, some "good", some "0", some 0⟩ "good"
      "parsed" rfl rfl).2.2.1 rfl (by decide) (by decide) rfl
    simpa [normalizeSdpMid] using h

/-- C8: when a send on the relay connection fails, the connection is torn down
and exactly one reconnect-and-resend cycle runs: success on the resend
delivers the payload, a second failure drops the payload with an error log
after the second teardown.  The send path catches every exception, so
broadcast always returns an outcome instead of raising, and reset merely
drops the connection, the next broadcast reconnecting on demand. -/
theorem relay_broadcast_one_reconnect_cycle (env : RelayEnv) (v : JVal) (s : String)
    (hdumps : JVal.dumps v = some s) :
    (env.sendOk 0 = false → env.connectOk 1 = true → env.sendOk 1 = false →
      WebSocketDetectionPublisher.broadcast env v true =
        (false, [.sendAttempt, .teardown, .reconnect, .sendAttempt, .teardown,
          .dropLog], .dropped)) ∧
    (env.sendOk 0 = false → env.connectOk 1 = true → env.sendOk 1 = true →
      WebSocketDetectionPublisher.broadcast env v true =
        (true, [.sendAttempt, .teardown, .reconnect, .sendAttempt], .sent)) ∧
    (∀ b, WebSocketDetectionPublisher.reset b = false) ∧
    (env.connectOk 0 = true → env.sendOk 0 = true →
      WebSocketDetectionPublisher.broadcast env v
          (WebSocketDetectionPublisher.reset true) =
        (true, [.reconnect, .sendAttempt], .sent)) := by
  refine ⟨?_, ?_, fun _ => rfl, ?_⟩
  · intro h0 hc1 h1
    simp [WebSocketDetectionPublisher.broadcast, relayAttempt, ensureConnection,
      hdumps, h0, hc1, h1]
  · intro h0 hc1 h1
    simp [WebSocketDetectionPublisher.broadcast, relayAttempt, ensureConnection,
      hdumps, h0, hc1, h1]
  · intro hc0 h0
    simp [WebSocketDetectionPublisher.broadcast, WebSocketDetectionPublisher.reset,
      relayAttempt, ensureConnection, hdumps, hc0, h0]

/-- Witness for C8 at a concrete environment whose sends always fail and one
whose reconnected send succeeds. -/
theorem relay_broadcast_one_reconnect_cycle_witness :
    WebSocketDetectionPublisher.broadcast ⟨fun _ => true, fun _ => false⟩ .jnull true =
      (false, [.sendAttempt, .teardown, .reconnect, .sendAttempt, .teardown,
        .dropLog], .dropped) ∧
    WebSocketDetectionPublisher.broadcast ⟨fun _ => true, fun k => k = 1⟩ .jnull true =
      (true, [.sendAttempt, .teardown, .reconnect, .sendAttempt], .sent) ∧
    WebSocketDetectionPublisher.broadcast ⟨fun _ => true, fun _ => true⟩ .jnull
        (WebSocketDetectionPublisher.reset true) =
      (true, [.reconnect, .sendAttempt], .sent) :=
  ⟨(relay_broadcast_one_reconnect_cycle ⟨fun _ => true, fun _ => false⟩ .jnull
      "null" rfl).1 rfl rfl rfl,
    (relay_broadcast_one_reconnect_cycle ⟨fun _ => true, fun k => k = 1⟩ .jnull
      "null" rfl).2.1 (by decide) rfl (by decide),
    (relay_broadcast_one_reconnect_cycle ⟨fun _ => true, fun _ => true⟩ .jnull
      "null" rfl).2.2.2 rfl rfl⟩

/-- Concatenation of adjacent step-one ranges. -/
theorem range'_one_append (s m n : Nat) :
    List.range' s m ++ List.range' (s + m) n = List.range' s (m + n) := by
  have h := List.range'_append s m n 1
  rw [Nat.one_mul] at h
  rw [h, Nat.add_comm n m]

/-- One session of frame consumption: the stamped frame ids continue the
processor counter as consecutive integers, each result's timestamp is the
capture clock of its frame, and the counter advances by the number of
frames. -/
theorem consumeVideo_spec (frames : List Nat) : ∀ st : YoloState,
    (consumeVideo st frames).2.map (fun r => r.frameId) =
      List.range' (st.frameId + 1) frames.length ∧
    (consumeVideo st frames).2.map (fun r => r.timestampMillis) = frames ∧
    (consumeVideo st frames).1.frameId = st.frameId + frames.length := by
  induction frames with
  | nil => intro st; simp [consumeVideo]
  | cons c rest ih =>
      intro st
      have h := ih ⟨st.frameId + 1⟩
      refine ⟨?_, ?_, ?_⟩
      · simp only [consumeVideo, YoloProcessor.process, List.map_cons, h.1,
          List.length_cons, List.range'_succ]
      · simp only [consumeVideo, YoloProcessor.process, List.map_cons, h.2.1]
      · simp only [consumeVideo, YoloProcessor.process, h.2.2, List.length_cons]
        omega

/-- Sessions run back to back on the shared processor: the concatenated frame
ids over all sessions are the consecutive integers continuing the counter,
and every session reproduces its frames' capture clocks as timestamps. -/
theorem runSessionsAux_spec (sessions : List (List Nat)) : ∀ st : YoloState,
    (runSessionsAux st sessions).2.flatten.map (fun r => r.frameId) =
      List.range' (st.frameId + 1) (sessions.map List.length).sum ∧
    (runSessionsAux st sessions).2.map (fun rs => rs.map (fun r => r.timestampMillis)) =
      sessions ∧
    (runSessionsAux st sessions).1.frameId = st.frameId + (sessions.map List.length).sum := by
  induction sessions with
  | nil => intro st; simp [runSessionsAux]
  | cons fs rest ih =>
      intro st
      have hone := consumeVideo_spec fs st
      have hrest := ih ⟨st.frameId + fs.length⟩
      have hfst : (consumeVideo st fs).1 = ⟨st.frameId + fs.length⟩ := by
        have heta : (consumeVideo st fs).1 = ⟨(consumeVideo st fs).1.frameId⟩ := rfl
        rw [heta, hone.2.2]
      refine ⟨?_, ?_, ?_⟩
      · simp only [runSessionsAux, List.flatten_cons, List.map_append, hone.1, hfst]
        rw [hrest.1]
        simp only [List.map_cons, List.sum_cons]
        rw [show (⟨st.frameId + fs.length⟩ : YoloState).frameId + 1 =
          st.frameId + 1 + fs.length by
            show st.frameId + fs.length + 1 = st.frameId + 1 + fs.length
            omega]
        exact range'_one_append (st.frameId + 1) fs.length ((rest.map List.length).sum)
      · simp only [runSessionsAux, List.map_cons, hone.2.1, hfst]
        rw [hrest.2.1]
      · simp only [runSessionsAux, List.map_cons, List.sum_cons, hfst]
        rw [hrest.2.2]
        show st.frameId + fs.length + (rest.map List.length).sum =
          st.frameId + (fs.length + (rest.map List.length).sum)
        omega

/-- C9 counterexample: over two sessions of one pipeline the second session's
frame consumer does not start its own frame-id sequence — its only result is
stamped 3, continuing the first session's count, whereas a fresh frame
consumer stamps the same frame 1. -/
theorem yolo_frame_ids_not_session_scoped :
    ((WebRTCYOLOPipeline.runSessions [[10, 11], [12]]).getD 1 []).map
        (fun r => r.frameId) = [3] ∧
    (consumeVideo ⟨0⟩ [12]).2.map (fun r => r.frameId) = [1] := by
  decide

/-- C9 amended: the frame ids stamped on successive detection results are the
consecutive integers 1, 2, ... across the whole lifetime of the pipeline's
single YoloProcessor — strictly increasing within and across sessions, a new
session continuing the numbering of the previous one — and every result
carries the wall-clock capture timestamp in milliseconds of its frame. -/
theorem yolo_frame_ids_pipeline_scoped (sessions : List (List Nat)) :
    (WebRTCYOLOPipeline.runSessions sessions).flatten.map (fun r => r.frameId) =
      List.range' 1 (sessions.map List.length).sum ∧
    ((WebRTCYOLOPipeline.runSessions sessions).flatten.map
        (fun r => r.frameId)).Pairwise (· < ·) ∧
    (WebRTCYOLOPipeline.runSessions sessions).map
        (fun rs => rs.map (fun r => r.timestampMillis)) = sessions := by
  have h := runSessionsAux_spec sessions ⟨0⟩
  have h1 : (WebRTCYOLOPipeline.runSessions sessions).flatten.map (fun r => r.frameId) =
      List.range' 1 (sessions.map List.length).sum := h.1
  refine ⟨h1, ?_, h.2.1⟩
  rw [h1]
  exact List.pairwise_lt_range' 1 (sessions.map List.length).sum

end AndroidWebrtcDji
